import Mathlib

/- Verification of the heuristic-analysis and formatting layer of the
pubmed-clinical-research server (src/pubmed_server.py).

Python semantics are shallowly embedded: Python strings are Lean strings
handled through their character lists, Python float arithmetic in the score
formulas is modelled exactly over the rationals (and over the reals where
math.sqrt occurs), Python dicts that the code builds with known literal keys
are modelled as association lists in insertion order, and code that can raise
a Python exception is modelled with Except (the error value naming the Python
exception class). The ambient clock read by datetime.now() is passed as an
explicit PyDateTime argument. -/

namespace PubMed

/-! ### Python string primitives

The source only ever lowercases, strips, substring-tests and splits ASCII
text, so the character-level models below implement exactly the ASCII
behaviour of str.lower, str.strip, the in operator and re.split. -/

/-- Model of Python str.lower on a single character (ASCII range). -/
def lowerChar (c : Char) : Char :=
  if 'A' ≤ c ∧ c ≤ 'Z' then Char.ofNat (c.toNat + 32) else c

/-- Model of Python str.lower. -/
def pyLower (s : String) : String := String.mk (s.toList.map lowerChar)

/-- Contiguous-sublist test on character lists, used to model the Python
substring operator needle in hay. -/
def listContains (needle hay : List Char) : Bool :=
  match hay with
  | [] => needle.isEmpty
  | _ :: t => needle.isPrefixOf hay || listContains needle t

/-- Model of the Python expression needle in hay for strings. -/
def pyIn (needle hay : String) : Bool := listContains needle.toList hay.toList

/-- Characters removed by Python str.strip with no argument. -/
def isPySpace (c : Char) : Bool :=
  c == ' ' || c == '\t' || c == '\n' || c == '\x0d' || c == '\x0b' || c == '\x0c'

/-- Model of Python str.strip. -/
def pyStrip (s : String) : String :=
  String.mk (((s.toList.dropWhile isPySpace).reverse.dropWhile isPySpace).reverse)

/-- Sentence delimiters of the regular expression [.!?]+ used by
extract_pico_elements. -/
def isSentenceDelim (c : Char) : Bool := c == '.' || c == '!' || c == '?'

/-- Worker for the re.split model: a maximal run of delimiters produces one
split, and the final (possibly empty) piece is always emitted. -/
def splitSentAux : List Char → List Char → Bool → List String
  | [], cur, _ => [String.mk cur.reverse]
  | c :: rest, cur, afterDelim =>
    if isSentenceDelim c then
      if afterDelim then splitSentAux rest cur true
      else String.mk cur.reverse :: splitSentAux rest [] true
    else splitSentAux rest (c :: cur) false

/-- Model of re.split applied to the pattern [.!?]+ as in
extract_pico_elements. -/
def pySplitSentences (s : String) : List String := splitSentAux s.toList [] false

/-- Lookup in an association list modelling a Python dict built with distinct
literal keys (src builds every dict this way). -/
def assocLookup {A : Type} (l : List (String × A)) (key : String) : Option A :=
  match l with
  | [] => none
  | (k, v) :: rest => if key = k then some v else assocLookup rest key

/-! ### Fixed keyword and indicator tables (src/pubmed_server.py lines 101-131) -/

def INTERVENTION_KEYWORDS : List String :=
  ["treatment", "therapy", "intervention", "drug", "medication", "surgery", "exercise",
   "diet", "behavioral", "cognitive", "educational", "preventive", "diagnostic"]

def POPULATION_KEYWORDS : List String :=
  ["patients", "participants", "subjects", "population", "elderly", "children",
   "adults", "women", "men", "children", "adults", "elderly"]

def OUTCOME_KEYWORDS : List String :=
  ["outcome", "effect", "result", "mortality", "morbidity", "quality of life",
   "efficacy", "effectiveness", "side effect", "adverse event", "survival"]

def BIAS_INDICATORS : List (String × List String) :=
  [("selection_bias", ["consecutive", "convenience", "volunteer", "referral"]),
   ("detection_bias", ["observer", "measurement", "assessment", "blinded"]),
   ("performance_bias", ["control", "placebo", "standard care"]),
   ("attrition_bias", ["dropout", "withdrawal", "loss to follow-up"])]

def HIGH_IMPACT_JOURNALS : List String :=
  ["nature", "science", "cell", "lancet", "nejm", "bmj", "jama"]

def TOP_INSTITUTIONS : List String :=
  ["harvard", "mit", "stanford", "oxford", "cambridge", "johns hopkins",
   "mayo clinic", "cleveland clinic", "massachusetts general"]

/-! ### PICO extraction (extract_pico_elements, lines 319-366) -/

structure PICOElement where
  text : String
  confidence : ℚ
  category : String
deriving Repr, DecidableEq

/-- Sentence filter of extract_pico_elements: at least one keyword of the
category occurs in the lowercased sentence. -/
def sentenceMatches (kws : List String) (s : String) : Bool :=
  kws.any (fun k => pyIn k (pyLower s))

/-- The stripped matching sentences collected by one of the three loops of
extract_pico_elements, in text order. -/
def matchedSentences (kws : List String) (text : String) : List String :=
  ((pySplitSentences text).filter (sentenceMatches kws)).map pyStrip

/-- One PICOElement as built by extract_pico_elements for a keyword
category: first three matching sentences joined by spaces, confidence
min(0.95, count * 0.3 + 0.4). -/
def picoElementOf (kws : List String) (cat : String) (text : String) : PICOElement :=
  let ms := matchedSentences kws text
  { text := if ms.isEmpty then "" else String.intercalate " " (ms.take 3)
    confidence := min (95 / 100 : ℚ) ((ms.length : ℚ) * (3 / 10) + 2 / 5)
    category := cat }

/-- Model of extract_pico_elements: the returned dict with its four keys in
insertion order. The comparison entry is the constant empty element. -/
def extract_pico_elements (text : String) : List (String × PICOElement) :=
  [("population", picoElementOf POPULATION_KEYWORDS "population" text),
   ("intervention", picoElementOf INTERVENTION_KEYWORDS "intervention" text),
   ("outcome", picoElementOf OUTCOME_KEYWORDS "outcome" text),
   ("comparison", { text := "", confidence := 0, category := "comparison" })]

/-! ### Bias assessment (assess_study_bias, lines 368-381) -/

structure BiasData where
  score : ℚ
  indicators : List String
  risk_level : String
deriving Repr, DecidableEq

/-- The lowercased title-space-text concatenation used by assess_study_bias
(and, with the roles of its arguments as at its call sites, by
classify_study_design). -/
def combinedLower (title text : String) : String := pyLower (title ++ " " ++ text)

/-- Number of indicator strings of one bias category found in the combined
lowercased text (each indicator counted once). -/
def biasHits (title text : String) (inds : List String) : ℕ :=
  (inds.filter (fun ind => pyIn ind (combinedLower title text))).length

/-- Model of assess_study_bias(text, title): for each of the four fixed
categories, the normalized score min(1, hits / 3), the list of matched
indicators and the risk level. -/
def assess_study_bias (text title : String) : List (String × BiasData) :=
  BIAS_INDICATORS.map (fun p =>
    let hits := biasHits title text p.2
    (p.1,
     { score := min 1 ((hits : ℚ) / 3)
       indicators := p.2.filter (fun ind => pyIn ind (combinedLower title text))
       risk_level := if 2 ≤ hits then "High" else if 1 ≤ hits then "Medium" else "Low" }))

/-! ### Study-design classification (classify_study_design, lines 383-403) -/

/-- The ordered design-pattern table of classify_study_design; the first
component of each pair is the StudyDesign enum value string. -/
def design_patterns : List (String × List String) :=
  [("Randomized Controlled Trial",
      ["randomized controlled trial", "rct", "randomized", "controlled trial"]),
   ("Systematic Review", ["systematic review", "systematic"]),
   ("Meta-Analysis", ["meta-analysis", "meta analysis", "pooled analysis"]),
   ("Cohort Study", ["cohort", "longitudinal", "follow-up"]),
   ("Case-Control Study", ["case-control", "case control"]),
   ("Cross-sectional Study", ["cross-sectional", "cross sectional", "survey"]),
   ("Case Report", ["case report", "case series"]),
   ("Experimental Study", ["experimental", "intervention study"]),
   ("Observational Study", ["observational", "retrospective", "prospective"])]

/-- Model of classify_study_design: the value of the first design one of
whose patterns occurs in the lowercased combined text, else the fixed
unknown label. -/
def classify_study_design (title abstract : String) : String :=
  let combined := combinedLower title abstract
  match design_patterns.find? (fun p => p.2.any (fun pat => pyIn pat combined)) with
  | some p => p.1
  | none => "Unknown Study Design"

/-! ### Quality and relevance scores (lines 405-452) -/

/-- Model of Python round(x, 1) on the exact rational value. -/
def pyRound1 (x : ℚ) : ℚ := ((round (10 * x) : ℤ) : ℚ) / 10

/-- The design_scores dict of calculate_quality_score. -/
def design_scores : List (String × ℤ) :=
  [("Randomized Controlled Trial", 25),
   ("Systematic Review", 20),
   ("Meta-Analysis", 20),
   ("Cohort Study", 15),
   ("Case-Control Study", 10),
   ("Cross-sectional Study", 5),
   ("Case Report", -5),
   ("Unknown Study Design", 0)]

/-- design_scores.get(study_design, 0). -/
def design_score_of (study_design : String) : ℤ :=
  (assocLookup design_scores study_design).getD 0

/-- pico_analysis.get(key, PICOElement("", 0, key)). -/
def picoGet (pico : List (String × PICOElement)) (key : String) : PICOElement :=
  (assocLookup pico key).getD { text := "", confidence := 0, category := key }

/-- The bias-penalty accumulation loop of calculate_quality_score. -/
def biasPenalty : List (String × BiasData) → ℚ
  | [] => 0
  | (_, d) :: rest =>
    (if d.risk_level = "High" then 10 else if d.risk_level = "Medium" then 5 else 0)
      + biasPenalty rest

/-- Model of calculate_quality_score. -/
def calculate_quality_score (pico_analysis : List (String × PICOElement))
    (bias_assessment : List (String × BiasData)) (study_design : String) : ℚ :=
  let base_score : ℚ := 70 + (design_score_of study_design : ℚ)
  let avg_confidence :=
    ((picoGet pico_analysis "population").confidence
      + (picoGet pico_analysis "intervention").confidence
      + (picoGet pico_analysis "outcome").confidence) / 3
  let base_score := base_score + avg_confidence * 15
  pyRound1 (max 0 (min 100 (base_score - biasPenalty bias_assessment)))

/-- Model of calculate_clinical_relevance. -/
def calculate_clinical_relevance (quality_score : ℚ) (study_design : String)
    (recent_publication : Bool) : ℚ :=
  let relevance_score := quality_score * (7 / 10)
  let relevance_score := relevance_score +
    (if study_design = "Randomized Controlled Trial" ∨ study_design = "Systematic Review"
        ∨ study_design = "Meta-Analysis" then 15 else 0)
  let relevance_score := relevance_score + (if recent_publication then 10 else 0)
  min 100 relevance_score

/-! ### The ambient clock and the full clinical pipeline (lines 454-496) -/

/-- Explicit model of the value returned by datetime.now(); the source only
ever reads its year field, the other fields stand for the time of day. -/
structure PyDateTime where
  year : ℤ
  month : ℤ
  day : ℤ
  hour : ℤ
deriving Repr, DecidableEq

structure ClinicalAnalysis where
  pico_analysis : List (String × PICOElement)
  quality_score : ℚ
  bias_assessment : List (String × BiasData)
  clinical_relevance : ℚ
  study_design : String
  recommendations : List String
deriving Repr, DecidableEq

/-- Model of perform_clinical_analysis. None title or abstract is replaced by
the empty string; recent_publication is the Python truthiness of pub_year
conjoined with the five-year window against the ambient year. -/
def perform_clinical_analysis (title abstract : Option String) (pub_year : Option ℤ)
    (now : PyDateTime) : ClinicalAnalysis :=
  let t := title.getD ""
  let a := abstract.getD ""
  let combined_text := t ++ " " ++ a
  let pico_elements := extract_pico_elements combined_text
  let bias_assessment := assess_study_bias a t
  let study_design := classify_study_design t a
  let quality_score := calculate_quality_score pico_elements bias_assessment study_design
  let recent_publication :=
    match pub_year with
    | none => false
    | some y => if y = 0 then false else decide (now.year - y ≤ 5)
  let clinical_relevance :=
    calculate_clinical_relevance quality_score study_design recent_publication
  let recommendations :=
    (if quality_score < 60
       then ["Consider findings cautiously due to study quality concerns"] else [])
    ++ (if ((assocLookup bias_assessment "selection_bias").map
              (fun d => d.risk_level)).getD "" = "High"
          then ["Potential selection bias may affect generalizability"] else [])
    ++ (if study_design = "Randomized Controlled Trial"
          then ["High-quality evidence suitable for clinical decision-making"] else [])
  { pico_analysis := pico_elements
    quality_score := quality_score
    bias_assessment := bias_assessment
    clinical_relevance := clinical_relevance
    study_design := study_design
    recommendations := recommendations }

/-! ### Author credibility (analyze_author_credibility, lines 226-280) -/

/-- The publication-count tier block of analyze_author_credibility. -/
def pubTier (publication_count : ℤ) : ℝ :=
  if publication_count > 100 then 20
  else if publication_count > 50 then 15
  else if publication_count > 20 then 10
  else if publication_count > 10 then 5
  else 0

/-- The citation-count tier block of analyze_author_credibility. -/
def citeTier (citation_count : ℤ) : ℝ :=
  if citation_count > 1000 then 15
  else if citation_count > 500 then 10
  else if citation_count > 100 then 5
  else 0

structure AuthorProfile where
  name : String
  total_publications : ℤ
  h_index : ℝ
  citation_count : ℤ
  research_experience_years : ℤ
  institutional_affiliation : String
  credibility_score : ℝ

/-- Model of analyze_author_credibility; math.sqrt is modelled by the exact
real square root, and the two institution bonuses keep the Python guard
if institution: as a nonemptiness conjunct. -/
noncomputable def analyze_author_credibility (author_name : String)
    (publication_count citation_count pub_year : ℤ) (institution : String)
    (now : PyDateTime) : AuthorProfile :=
  let current_year := now.year
  let research_experience := max 0 (current_year - pub_year)
  let h_index : ℝ := min 50 (Real.sqrt (citation_count : ℝ) * (3 / 10))
  let base_score : ℝ := 50
  let base_score := base_score + pubTier publication_count
  let base_score := base_score + citeTier citation_count
  let base_score := base_score + min h_index 20
  let base_score := base_score + min ((research_experience : ℝ) * (1 / 2)) 10
  let base_score := base_score +
    (if institution ≠ "" ∧ HIGH_IMPACT_JOURNALS.any (fun j => pyIn j (pyLower institution))
       then 10 else 0)
  let base_score := base_score +
    (if institution ≠ "" ∧ TOP_INSTITUTIONS.any (fun j => pyIn j (pyLower institution))
       then 8 else 0)
  { name := author_name
    total_publications := publication_count
    h_index := h_index
    citation_count := citation_count
    research_experience_years := research_experience
    institutional_affiliation := institution
    credibility_score := min 100 base_score }

/-! ### Citation network (analyze_citation_network, lines 282-316) -/

structure CitationAnalysis where
  pmid : String
  citation_count : ℤ
  impact_factor : ℚ
  network_influence : ℚ
  citation_trend : String
  related_papers : List String
deriving Repr, DecidableEq

/-- Model of analyze_citation_network; the trend strings carry the exact
characters stored in the source file. -/
def analyze_citation_network (pmid : String) (citation_count pub_year : ℤ)
    (article_title : String) (now : PyDateTime) : CitationAnalysis :=
  let current_year := now.year
  let article_age := current_year - pub_year
  let impact_factor : ℚ := (citation_count : ℚ) / ((max article_age 1 : ℤ) : ℚ)
  let citation_trend :=
    if article_age < 3 ∧ citation_count > 10 then "ğŸ“ˆ Rapidly Emerging"
    else if citation_count > 50 then "ğŸ”¥ High Impact"
    else if citation_count > 20 then "ğŸ“Š Steady Impact"
    else if citation_count > 5 then "ğŸ“ˆ Moderate Impact"
    else "ğŸ“‰ Limited Citations"
  let network_influence := min 100 (((citation_count : ℚ) * impact_factor) / 10)
  let related_papers := (List.range' 1000 10).map (fun i => "PMID_" ++ toString i)
  { pmid := pmid
    citation_count := citation_count
    impact_factor := impact_factor
    network_influence := network_influence
    citation_trend := citation_trend
    related_papers := related_papers }

/-! ### Result-limit clamping in the tool entry points (lines 535-1000) -/

/-- Effective retmax of search_pubmed (max_results capped at 100, line 543). -/
def search_pubmed_retmax (max_results : ℤ) : ℤ :=
  if max_results > 100 then 100 else max_results

/-- Effective retmax of search_by_author (capped at 100, line 629). -/
def search_by_author_retmax (max_results : ℤ) : ℤ :=
  if max_results > 100 then 100 else max_results

/-- Effective retmax of clinical_search (capped at 20, line 705). -/
def clinical_search_retmax (max_results : ℤ) : ℤ :=
  if max_results > 20 then 20 else max_results

/-- Effective retmax of analyze_author_credibility_tool (capped at 50, line 999). -/
def author_credibility_retmax (max_results : ℤ) : ℤ :=
  if max_results > 50 then 50 else max_results

/-- Effective look-back days of recent_papers (capped at 365, line 655). -/
def recent_papers_days (days : ℤ) : ℤ :=
  if days > 365 then 365 else days

/-- The ESearch query parameters built by search_pubmed. -/
def search_params (query : String) (max_results : ℤ) : List (String × String) :=
  [("db", "pubmed"), ("term", query),
   ("retmax", toString (search_pubmed_retmax max_results)),
   ("retmode", "json"), ("sort", "relevance")]

/-- The ESearch query parameters built by search_by_author. -/
def search_by_author_params (author : String) (max_results : ℤ) : List (String × String) :=
  [("db", "pubmed"), ("term", author ++ "[Author]"),
   ("retmax", toString (search_by_author_retmax max_results)),
   ("retmode", "json"), ("sort", "relevance")]

/-- The ESearch query parameters built by clinical_search. -/
def clinical_search_params (query : String) (max_results : ℤ) : List (String × String) :=
  [("db", "pubmed"), ("term", query),
   ("retmax", toString (clinical_search_retmax max_results)),
   ("retmode", "json"), ("sort", "relevance")]

/-- The ESearch query parameters built by analyze_author_credibility_tool. -/
def author_credibility_params (author : String) (max_results : ℤ) : List (String × String) :=
  [("db", "pubmed"), ("term", author ++ "[Author]"),
   ("retmax", toString (author_credibility_retmax max_results)),
   ("retmode", "json"), ("sort", "relevance")]

/-- The date window of recent_papers as a pair of day numbers (start, end);
the strftime strings in the request term are images of these two values, and
the retmax of that request is the constant 20. -/
def recent_papers_window (todayDay days : ℤ) : ℤ × ℤ :=
  (todayDay - recent_papers_days days, todayDay)

/-! ### JSON values and the Pythonic operations used by format_search_results
(lines 155-179)

The upstream response handed to format_search_results is the value parsed
from the ESearch JSON body (or None after a transport failure). JVal models
such a parsed value; the pyXxx operations below model the exact Python
operations the function applies to it, with Except.error naming the
exception class Python would raise. -/

inductive JVal where
  | null
  | bool (b : Bool)
  | num (n : ℤ)
  | str (s : String)
  | arr (xs : List JVal)
  | obj (fields : List (String × JVal))

/-- Python truthiness of a parsed JSON value. -/
def pyTruthy : JVal → Bool
  | .null => false
  | .bool b => b
  | .num n => n != 0
  | .str s => !s.isEmpty
  | .arr xs => !xs.isEmpty
  | .obj fs => !fs.isEmpty

/-- Python membership test key in v: key lookup on dicts, element test on
lists, substring test on strings; a TypeError on numbers, booleans and None. -/
def pyContains (v : JVal) (key : String) : Except String Bool :=
  match v with
  | .obj fs => .ok (assocLookup fs key).isSome
  | .arr xs => .ok (xs.any (fun x => match x with | .str s => s == key | _ => false))
  | .str s => .ok (pyIn key s)
  | _ => .error "TypeError"

/-- Python subscript v[key] with a string key: raises KeyError when the key
is absent from a dict and TypeError on every non-dict. -/
def pyGetItem (v : JVal) (key : String) : Except String JVal :=
  match v with
  | .obj fs =>
    match assocLookup fs key with
    | some x => .ok x
    | none => .error "KeyError"
  | _ => .error "TypeError"

/-- Python v.get(key, default): defined on dicts only (AttributeError
otherwise). -/
def pyDictGet (v : JVal) (key : String) (dflt : JVal) : Except String JVal :=
  match v with
  | .obj fs => .ok ((assocLookup fs key).getD dflt)
  | _ => .error "AttributeError"

/-- Python iteration/slicing of the idlist value: lists yield their elements,
strings their characters; everything else raises TypeError. -/
def pyIter (v : JVal) : Except String (List JVal) :=
  match v with
  | .arr xs => .ok xs
  | .str s => .ok (s.toList.map (fun c => .str (String.mk [c])))
  | _ => .error "TypeError"

/-- Decimal-digit parser backing the int() model. -/
def parseNatDigits (cs : List Char) : Option ℕ :=
  if cs.isEmpty then none
  else
    cs.foldl
      (fun acc c =>
        match acc with
        | none => none
        | some n => if c.isDigit then some (n * 10 + (c.toNat - 48)) else none)
      (some 0)

/-- Model of Python int() applied to a parsed JSON value: numbers and
booleans convert, strings must be (optionally negated) decimal literals, and
everything else raises; a non-numeric string raises ValueError. -/
def pyInt (v : JVal) : Except String ℤ :=
  match v with
  | .num n => .ok n
  | .bool b => .ok (if b then 1 else 0)
  | .str s =>
    match s.toList with
    | '-' :: rest =>
      match parseNatDigits rest with
      | some n => .ok (-(n : ℤ))
      | none => .error "ValueError"
    | cs =>
      match parseNatDigits cs with
      | some n => .ok ((n : ℤ))
      | none => .error "ValueError"
  | _ => .error "TypeError"

/-- Python str() of a parsed JSON value as used in the f-strings of
format_search_results (its pmid and count interpolations). -/
def pyStr : JVal → String
  | .null => "None"
  | .bool b => if b then "True" else "False"
  | .num n => toString n
  | .str s => s
  | .arr _ => "<list>"
  | .obj _ => "<dict>"

/-- One numbered entry of the search-result listing, exactly as concatenated
by the loop body of format_search_results. -/
def searchEntry (i : ℕ) (pmid : JVal) : String :=
  toString i ++ ". PMID: " ++ pyStr pmid
    ++ "\n   ğŸ”— [PubMed Link](https://pubmed.ncbi.nlm.nih.gov/" ++ pyStr pmid ++ "/)\n"

/-- The loop of format_search_results over enumerate(pmids[:10], 1), already
restricted to the sliced list. -/
def searchEntries (pmids : List JVal) : String :=
  String.join ((List.enumFrom 1 pmids).map (fun p => searchEntry p.1 p.2))

/-- Model of format_search_results. The argument is None after a transport
failure, otherwise the parsed response body; Except.error models a Python
exception escaping to the caller. -/
def format_search_results (esearch_data : Option JVal) : Except String String :=
  match esearch_data with
  | none => .ok "No search results found or invalid response format."
  | some d =>
    if pyTruthy d = false then .ok "No search results found or invalid response format."
    else
      match pyContains d "esearchresult" with
      | .error e => .error e
      | .ok false => .ok "No search results found or invalid response format."
      | .ok true =>
        match pyGetItem d "esearchresult" with
        | .error e => .error e
        | .ok result =>
          match pyDictGet result "idlist" .null with
          | .error e => .error e
          | .ok idlist0 =>
            if pyTruthy idlist0 = false then .ok "No articles found matching your query."
            else
              match pyGetItem result "idlist" with
              | .error e => .error e
              | .ok pmids =>
                match pyDictGet result "count" (.str "0") with
                | .error e => .error e
                | .ok count =>
                  if pyTruthy pmids = false then .ok "No articles found matching your query."
                  else
                    match pyIter pmids with
                    | .error e => .error e
                    | .ok pmidList =>
                      let formatted := "Found " ++ pyStr count ++ " articles:\n\n"
                        ++ searchEntries (pmidList.take 10)
                      match pyInt count with
                      | .error e => .error e
                      | .ok c =>
                        if 10 < c then
                          .ok (formatted ++ "\n... and " ++ toString (c - 10)
                                ++ " more articles.\n")
                        else .ok formatted

/-- A response of the documented ESearch shape: an esearchresult object
carrying an identifier array and an integer count. -/
def mkSearch (c : ℤ) (pmids : List String) : JVal :=
  .obj [("esearchresult",
    .obj [("idlist", .arr (pmids.map .str)), ("count", .num c)])]

/-! ### Specification-side formulas

The definitions below restate score formulas in the words of the
specification, to be compared with the source-side definitions above. -/

/-- Per-design adjustment exactly as enumerated by the specification. -/
def designAdjSpec (study_design : String) : ℤ :=
  if study_design = "Randomized Controlled Trial" then 25
  else if study_design = "Systematic Review" then 20
  else if study_design = "Meta-Analysis" then 20
  else if study_design = "Cohort Study" then 15
  else if study_design = "Case-Control Study" then 10
  else if study_design = "Cross-sectional Study" then 5
  else if study_design = "Case Report" then -5
  else 0

/-- Number of High-risk categories of a bias assessment. -/
def highRiskCount (bias : List (String × BiasData)) : ℕ :=
  (bias.filter (fun p => p.2.risk_level == "High")).length

/-- Number of Medium-risk categories of a bias assessment. -/
def mediumRiskCount (bias : List (String × BiasData)) : ℕ :=
  (bias.filter (fun p => p.2.risk_level == "Medium")).length

/-- Quality score as described by the specification: 70, plus the per-design
adjustment, plus the average population / intervention / outcome confidence
times 15, minus 10 per High-risk and 5 per Medium-risk bias category, clamped
to the interval from 0 to 100 and rounded to one decimal. -/
def qualityScoreSpec (pico : List (String × PICOElement))
    (bias : List (String × BiasData)) (study_design : String) : ℚ :=
  pyRound1 (max 0 (min 100
    (70 + (designAdjSpec study_design : ℚ)
      + ((picoGet pico "population").confidence
          + (picoGet pico "intervention").confidence
          + (picoGet pico "outcome").confidence) / 3 * 15
      - (10 * (highRiskCount bias : ℚ) + 5 * (mediumRiskCount bias : ℚ)))))

/-- Author-credibility score as described by the specification: 50 plus the
publication and citation tier bonuses, plus the capped h-index and experience
terms, plus 10 or 8 when the lowercased institution contains a token of the
journal-name respectively top-institution list, capped at 100. -/
noncomputable def credibilityScoreSpec (publication_count citation_count pub_year : ℤ)
    (institution : String) (now : PyDateTime) : ℝ :=
  min 100
    (50 + pubTier publication_count + citeTier citation_count
      + min (min 50 (Real.sqrt (citation_count : ℝ) * (3 / 10))) 20
      + min ((max 0 (now.year - pub_year) : ℤ) * (1 / 2 : ℝ)) 10
      + (if HIGH_IMPACT_JOURNALS.any (fun j => pyIn j (pyLower institution)) then 10 else 0)
      + (if TOP_INSTITUTIONS.any (fun j => pyIn j (pyLower institution)) then 8 else 0))

/-! ### Helper lemmas -/

/-- The dict lookup of calculate_quality_score agrees with the tabulated
per-design adjustment of the specification. -/
theorem design_score_of_eq_spec (s : String) : design_score_of s = designAdjSpec s := by
  simp only [design_score_of, design_scores, assocLookup, designAdjSpec]
  split_ifs <;> rfl

/-- The bias-penalty loop sums to 10 per High-risk and 5 per Medium-risk
category. -/
theorem biasPenalty_eq_counts (bias : List (String × BiasData)) :
    biasPenalty bias = 10 * (highRiskCount bias : ℚ) + 5 * (mediumRiskCount bias : ℚ) := by
  induction bias with
  | nil => simp [biasPenalty, highRiskCount, mediumRiskCount]
  | cons hd tl ih =>
    obtain ⟨k, d⟩ := hd
    by_cases h1 : d.risk_level = "High"
    · simp [biasPenalty, highRiskCount, mediumRiskCount, List.filter_cons, h1] at *
      linarith
    · by_cases h2 : d.risk_level = "Medium"
      · simp [biasPenalty, highRiskCount, mediumRiskCount, List.filter_cons, h1, h2] at *
        linarith
      · simp [biasPenalty, highRiskCount, mediumRiskCount, List.filter_cons, h1, h2] at *
        linarith

/-- Bounds of the clamp-then-round tail of calculate_quality_score. -/
theorem pyRound1_clamp_bounds (x : ℚ) :
    0 ≤ pyRound1 (max 0 (min 100 x)) ∧ pyRound1 (max 0 (min 100 x)) ≤ 100 := by
  have hy0 : (0 : ℚ) ≤ max 0 (min 100 x) := le_max_left _ _
  have hy100 : max 0 (min 100 x) ≤ 100 := max_le (by norm_num) (min_le_left _ _)
  rw [pyRound1, round_eq]
  constructor
  · have h1 : (0 : ℤ) ≤ ⌊10 * max 0 (min 100 x) + 1 / 2⌋ :=
      Int.le_floor.mpr (by push_cast; linarith)
    have h2 : (0 : ℚ) ≤ (⌊10 * max 0 (min 100 x) + 1 / 2⌋ : ℚ) := by exact_mod_cast h1
    linarith
  · have h1 : ⌊(10 * max 0 (min 100 x) + 1 / 2 : ℚ)⌋ ≤ ⌊(2001 / 2 : ℚ)⌋ :=
      Int.floor_mono (by linarith)
    have h2 : (⌊(2001 / 2 : ℚ)⌋ : ℤ) = 1000 := by norm_num [Int.floor_eq_iff]
    have h3 : (⌊(10 * max 0 (min 100 x) + 1 / 2 : ℚ)⌋ : ℚ) ≤ 1000 := by
      exact_mod_cast h1.trans_eq h2
    linarith

/-! ### C2: quality-score formula and range -/

/-- C2: for every PICO-analysis mapping, bias-assessment mapping and
study-design label, calculate_quality_score equals 70 plus the fixed
per-design adjustment, plus the average population / intervention / outcome
confidence times 15, minus 10 per High-risk and 5 per Medium-risk bias
category, clamped to the interval from 0 to 100 and rounded to one decimal;
in particular the returned score always lies within that interval. -/
theorem quality_score_formula_and_range (pico : List (String × PICOElement))
    (bias : List (String × BiasData)) (study_design : String) :
    calculate_quality_score pico bias study_design = qualityScoreSpec pico bias study_design
    ∧ 0 ≤ calculate_quality_score pico bias study_design
    ∧ calculate_quality_score pico bias study_design ≤ 100 := by
  have harg :
      70 + (design_score_of study_design : ℚ)
          + ((picoGet pico "population").confidence
              + (picoGet pico "intervention").confidence
              + (picoGet pico "outcome").confidence) / 3 * 15
          - biasPenalty bias
        = 70 + (designAdjSpec study_design : ℚ)
          + ((picoGet pico "population").confidence
              + (picoGet pico "intervention").confidence
              + (picoGet pico "outcome").confidence) / 3 * 15
          - (10 * (highRiskCount bias : ℚ) + 5 * (mediumRiskCount bias : ℚ)) := by
    rw [design_score_of_eq_spec, biasPenalty_eq_counts]
  have heq : calculate_quality_score pico bias study_design
      = qualityScoreSpec pico bias study_design := by
    simp only [calculate_quality_score, qualityScoreSpec]
    rw [← harg]
  refine ⟨heq, ?_, ?_⟩
  · simpa [calculate_quality_score] using
      (pyRound1_clamp_bounds (70 + (design_score_of study_design : ℚ)
        + ((picoGet pico "population").confidence
            + (picoGet pico "intervention").confidence
            + (picoGet pico "outcome").confidence) / 3 * 15
        - biasPenalty bias)).1
  · simpa [calculate_quality_score] using
      (pyRound1_clamp_bounds (70 + (design_score_of study_design : ℚ)
        + ((picoGet pico "population").confidence
            + (picoGet pico "intervention").confidence
            + (picoGet pico "outcome").confidence) / 3 * 15
        - biasPenalty bias)).2

/-! ### C3: PICO extraction -/

/-- The empty-guard of the extracted text collapses to a plain join. -/
theorem pico_text_join (ms : List String) :
    (if ms.isEmpty then "" else String.intercalate " " (ms.take 3))
      = String.intercalate " " (ms.take 3) := by
  cases ms <;> rfl

/-- C3: for every input text, PICO extraction splits on sentence delimiters,
keeps for each of the population, intervention and outcome categories the
sentences holding a case-insensitive substring match of one of that
category's keywords, returns the first three of them joined by spaces with
confidence min(0.95, 0.4 + 0.3 times the matched-sentence count), and returns
a constant empty comparison element of confidence zero. -/
theorem pico_extraction_formula (text : String) :
    ((picoGet (extract_pico_elements text) "population").text
        = String.intercalate " " ((matchedSentences POPULATION_KEYWORDS text).take 3)
      ∧ (picoGet (extract_pico_elements text) "population").confidence
        = min (95 / 100)
            (2 / 5 + (3 / 10) * ((matchedSentences POPULATION_KEYWORDS text).length : ℚ)))
    ∧ ((picoGet (extract_pico_elements text) "intervention").text
        = String.intercalate " " ((matchedSentences INTERVENTION_KEYWORDS text).take 3)
      ∧ (picoGet (extract_pico_elements text) "intervention").confidence
        = min (95 / 100)
            (2 / 5 + (3 / 10) * ((matchedSentences INTERVENTION_KEYWORDS text).length : ℚ)))
    ∧ ((picoGet (extract_pico_elements text) "outcome").text
        = String.intercalate " " ((matchedSentences OUTCOME_KEYWORDS text).take 3)
      ∧ (picoGet (extract_pico_elements text) "outcome").confidence
        = min (95 / 100)
            (2 / 5 + (3 / 10) * ((matchedSentences OUTCOME_KEYWORDS text).length : ℚ)))
    ∧ picoGet (extract_pico_elements text) "comparison"
        = { text := "", confidence := 0, category := "comparison" } := by
  have hp : picoGet (extract_pico_elements text) "population"
      = picoElementOf POPULATION_KEYWORDS "population" text := rfl
  have hi : picoGet (extract_pico_elements text) "intervention"
      = picoElementOf INTERVENTION_KEYWORDS "intervention" text := rfl
  have ho : picoGet (extract_pico_elements text) "outcome"
      = picoElementOf OUTCOME_KEYWORDS "outcome" text := rfl
  have hc : picoGet (extract_pico_elements text) "comparison"
      = { text := "", confidence := 0, category := "comparison" } := rfl
  refine ⟨⟨?_, ?_⟩, ⟨?_, ?_⟩, ⟨?_, ?_⟩, hc⟩
  · rw [hp]; exact pico_text_join _
  · rw [hp]; show min _ _ = min _ _; congr 1; ring
  · rw [hi]; exact pico_text_join _
  · rw [hi]; show min _ _ = min _ _; congr 1; ring
  · rw [ho]; exact pico_text_join _
  · rw [ho]; show min _ _ = min _ _; congr 1; ring

/-! ### C4: bias assessment -/

/-- C4: for each bias category of the fixed table, the assessment reports the
matched indicators, the score min(1, hits / 3), and the risk level High,
Medium or Low according to whether at least 2, exactly 1, or 0 of the
indicators occur in the combined lowercased title and text; in particular
exactly 2 hits give risk High with score 2/3. -/
theorem bias_assessment_formula (title text cat : String) (inds : List String)
    (hmem : (cat, inds) ∈ BIAS_INDICATORS) :
    assocLookup (assess_study_bias text title) cat
      = some { score := min 1 ((biasHits title text inds : ℚ) / 3)
               indicators := inds.filter (fun ind => pyIn ind (combinedLower title text))
               risk_level := if 2 ≤ biasHits title text inds then "High"
                             else if 1 ≤ biasHits title text inds then "Medium" else "Low" }
    ∧ (biasHits title text inds = 2 →
        assocLookup (assess_study_bias text title) cat
          = some { score := 2 / 3
                   indicators := inds.filter (fun ind => pyIn ind (combinedLower title text))
                   risk_level := "High" }) := by
  have hmain :
      assocLookup (assess_study_bias text title) cat
        = some { score := min 1 ((biasHits title text inds : ℚ) / 3)
                 indicators := inds.filter (fun ind => pyIn ind (combinedLower title text))
                 risk_level := if 2 ≤ biasHits title text inds then "High"
                               else if 1 ≤ biasHits title text inds then "Medium" else "Low" } := by
    simp only [BIAS_INDICATORS, List.mem_cons, List.mem_singleton, Prod.mk.injEq,
      List.not_mem_nil, or_false] at hmem
    rcases hmem with ⟨h1, h2⟩ | ⟨h1, h2⟩ | ⟨h1, h2⟩ | ⟨h1, h2⟩ <;> subst h1 <;> subst h2 <;>
      simp [assess_study_bias, BIAS_INDICATORS, assocLookup, biasHits]
  refine ⟨hmain, fun h2 => ?_⟩
  rw [hmain, h2]
  norm_num

/-- Witness for C4: a title carrying exactly the two detection-bias
indicators observer and measurement is rated High with score 2/3. -/
theorem bias_assessment_witness :
    assocLookup (assess_study_bias "" "Observer and measurement issues") "detection_bias"
      = some { score := 2 / 3
               indicators := ["observer", "measurement"]
               risk_level := "High" } := by
  have h := (bias_assessment_formula "Observer and measurement issues" "" "detection_bias"
    ["observer", "measurement", "assessment", "blinded"] (by decide)).2 (by decide)
  have hind : List.filter
      (fun ind => pyIn ind (combinedLower "Observer and measurement issues" ""))
      ["observer", "measurement", "assessment", "blinded"] = ["observer", "measurement"] := by
    decide
  rw [hind] at h
  exact h

/-! ### C5: study-design classification -/

/-- find? returns the marked element when every earlier element fails the
predicate and the marked element satisfies it. -/
theorem find?_of_middle {α : Type} (p : α → Bool) (pre : List α) (x : α) (post : List α)
    (h1 : ∀ y ∈ pre, p y = false) (h2 : p x = true) :
    List.find? p (pre ++ x :: post) = some x := by
  induction pre with
  | nil => simp [List.find?, h2]
  | cons a l ih =>
    have ha := h1 a (by simp)
    simp only [List.cons_append, List.find?, ha]
    exact ih (fun y hy => h1 y (by simp [hy]))

/-- C5: classify_study_design returns the label of the first design of the
fixed ordered table one of whose patterns occurs as a substring of the
lowercased combined text, and the fixed unknown label when no pattern of any
design matches; when several designs match, the earliest in the table wins. -/
theorem study_design_first_match (title abstract : String) :
    ((∀ p ∈ design_patterns, ∀ pat ∈ p.2,
        pyIn pat (combinedLower title abstract) = false) →
      classify_study_design title abstract = "Unknown Study Design")
    ∧ (∀ pre p post, design_patterns = pre ++ p :: post →
        (∃ pat ∈ p.2, pyIn pat (combinedLower title abstract) = true) →
        (∀ q ∈ pre, ∀ pat ∈ q.2, pyIn pat (combinedLower title abstract) = false) →
        classify_study_design title abstract = p.1) := by
  constructor
  · intro hnone
    have hfind : design_patterns.find?
        (fun p => p.2.any (fun pat => pyIn pat (combinedLower title abstract))) = none := by
      rw [List.find?_eq_none]
      intro x hx
      simp only [List.any_eq_true, not_exists, not_and, Bool.not_eq_true]
      intro pat hpat
      exact hnone x hx pat hpat
    simp [classify_study_design, hfind]
  · intro pre p post hsplit hmatch hpre
    have hfind : design_patterns.find?
        (fun q => q.2.any (fun pat => pyIn pat (combinedLower title abstract))) = some p := by
      rw [hsplit]
      apply find?_of_middle
      · intro y hy
        simp only [List.any_eq_false]
        intro pat hpat
        simp [hpre y hy pat hpat]
      · simp only [List.any_eq_true]
        obtain ⟨pat, hpat, hin⟩ := hmatch
        exact ⟨pat, hpat, hin⟩
    simp [classify_study_design, hfind]

/-- Witness for C5: a text matching both the cohort patterns and no earlier
design is classified as a cohort study through the ordering of the table. -/
theorem study_design_first_match_witness :
    classify_study_design "a cohort study of x" "" = "Cohort Study" := by
  have h := (study_design_first_match "a cohort study of x" "").2
    [("Randomized Controlled Trial",
        ["randomized controlled trial", "rct", "randomized", "controlled trial"]),
     ("Systematic Review", ["systematic review", "systematic"]),
     ("Meta-Analysis", ["meta-analysis", "meta analysis", "pooled analysis"])]
    ("Cohort Study", ["cohort", "longitudinal", "follow-up"])
    [("Case-Control Study", ["case-control", "case control"]),
     ("Cross-sectional Study", ["cross-sectional", "cross sectional", "survey"]),
     ("Case Report", ["case report", "case series"]),
     ("Experimental Study", ["experimental", "intervention study"]),
     ("Observational Study", ["observational", "retrospective", "prospective"])]
    rfl ⟨"cohort", by decide, by decide⟩ (by decide)
  exact h

/-! ### C7: silent clamping of result limits -/

/-- C7: every result-limit argument above the documented maximum of a tool
produces exactly the upstream request of the maximum: the effective retmax
(or day window for recent_papers) equals the maximum, and no argument is
rejected since the clamping functions are total. -/
theorem limit_clamping (n : ℤ) (query author : String) (todayDay : ℤ) :
    (100 < n → search_params query n = search_params query 100
      ∧ search_pubmed_retmax n = 100)
    ∧ (100 < n → search_by_author_params author n = search_by_author_params author 100
      ∧ search_by_author_retmax n = 100)
    ∧ (20 < n → clinical_search_params query n = clinical_search_params query 20
      ∧ clinical_search_retmax n = 20)
    ∧ (50 < n → author_credibility_params author n = author_credibility_params author 50
      ∧ author_credibility_retmax n = 50)
    ∧ (365 < n → recent_papers_window todayDay n = recent_papers_window todayDay 365
      ∧ recent_papers_days n = 365) := by
  refine ⟨fun h => ?_, fun h => ?_, fun h => ?_, fun h => ?_, fun h => ?_⟩
  · constructor <;> simp [search_params, search_pubmed_retmax, h]
  · constructor <;> simp [search_by_author_params, search_by_author_retmax, h]
  · constructor <;> simp [clinical_search_params, clinical_search_retmax, h]
  · constructor <;> simp [author_credibility_params, author_credibility_retmax, h]
  · constructor <;> simp [recent_papers_window, recent_papers_days, h]

/-- Witness for C7: a request for 500 results (or 500 days) behaves exactly
as a request for the documented maximum. -/
theorem limit_clamping_witness :
    search_params "cancer" 500 = search_params "cancer" 100
    ∧ search_by_author_params "Smith J" 500 = search_by_author_params "Smith J" 100
    ∧ clinical_search_params "cancer" 500 = clinical_search_params "cancer" 20
    ∧ author_credibility_params "Smith J" 500 = author_credibility_params "Smith J" 50
    ∧ recent_papers_window 20000 500 = recent_papers_window 20000 365 := by
  have h := limit_clamping 500 "cancer" "Smith J" 20000
  exact ⟨(h.1 (by norm_num)).1, (h.2.1 (by norm_num)).1, (h.2.2.1 (by norm_num)).1,
    (h.2.2.2.1 (by norm_num)).1, (h.2.2.2.2 (by norm_num)).1⟩

/-! ### C10: lower bound of the pipeline quality score -/

/-- Every confidence produced by extract_pico_elements for a keyword
category is at least 0.4. -/
theorem picoElementOf_confidence_ge (kws : List String) (cat text : String) :
    (2 / 5 : ℚ) ≤ (picoElementOf kws cat text).confidence := by
  simp only [picoElementOf]
  apply le_min
  · norm_num
  · have h : (0 : ℚ) ≤ ((matchedSentences kws text).length : ℚ) * (3 / 10) := by positivity
    linarith

/-- The per-design adjustment is never below the case-report penalty. -/
theorem design_score_of_ge (s : String) : (-5 : ℤ) ≤ design_score_of s := by
  simp only [design_score_of, design_scores, assocLookup]
  split_ifs <;> decide

/-- Each bias category contributes at most 10 to the penalty. -/
theorem biasPenalty_le_length (l : List (String × BiasData)) :
    biasPenalty l ≤ 10 * (l.length : ℚ) := by
  induction l with
  | nil => simp [biasPenalty]
  | cons hd tl ih =>
    obtain ⟨k, d⟩ := hd
    have hh : (if d.risk_level = "High" then (10 : ℚ)
        else if d.risk_level = "Medium" then 5 else 0) ≤ 10 := by
      split_ifs <;> norm_num
    simp only [biasPenalty, List.length_cons]
    push_cast
    linarith

/-- The quality score of pipeline-shaped inputs is at least 31, for every
design label whatsoever. -/
theorem quality_pipeline_lower_bound (comb t a design : String) :
    31 ≤ calculate_quality_score (extract_pico_elements comb) (assess_study_bias a t) design := by
  have hc1 : (2 / 5 : ℚ) ≤ (picoGet (extract_pico_elements comb) "population").confidence := by
    rw [show picoGet (extract_pico_elements comb) "population"
        = picoElementOf POPULATION_KEYWORDS "population" comb from rfl]
    exact picoElementOf_confidence_ge _ _ _
  have hc2 : (2 / 5 : ℚ) ≤ (picoGet (extract_pico_elements comb) "intervention").confidence := by
    rw [show picoGet (extract_pico_elements comb) "intervention"
        = picoElementOf INTERVENTION_KEYWORDS "intervention" comb from rfl]
    exact picoElementOf_confidence_ge _ _ _
  have hc3 : (2 / 5 : ℚ) ≤ (picoGet (extract_pico_elements comb) "outcome").confidence := by
    rw [show picoGet (extract_pico_elements comb) "outcome"
        = picoElementOf OUTCOME_KEYWORDS "outcome" comb from rfl]
    exact picoElementOf_confidence_ge _ _ _
  have hd : (-5 : ℚ) ≤ (design_score_of design : ℚ) := by
    exact_mod_cast design_score_of_ge design
  have hblen : (assess_study_bias a t).length = 4 := by
    simp [assess_study_bias, BIAS_INDICATORS]
  have hb : biasPenalty (assess_study_bias a t) ≤ 40 := by
    have := biasPenalty_le_length (assess_study_bias a t)
    rw [hblen] at this
    norm_num at this
    exact this
  simp only [calculate_quality_score]
  have hx : (31 : ℚ) ≤ 70 + (design_score_of design : ℚ)
      + ((picoGet (extract_pico_elements comb) "population").confidence
          + (picoGet (extract_pico_elements comb) "intervention").confidence
          + (picoGet (extract_pico_elements comb) "outcome").confidence) / 3 * 15
      - biasPenalty (assess_study_bias a t) := by linarith
  set y := max (0 : ℚ) (min 100 (70 + (design_score_of design : ℚ)
      + ((picoGet (extract_pico_elements comb) "population").confidence
          + (picoGet (extract_pico_elements comb) "intervention").confidence
          + (picoGet (extract_pico_elements comb) "outcome").confidence) / 3 * 15
      - biasPenalty (assess_study_bias a t))) with hy
  have hy31 : (31 : ℚ) ≤ y := by
    rw [hy]
    exact le_trans (le_min (by norm_num) hx) (le_max_right _ _)
  have hround : (310 : ℤ) ≤ round (10 * y) := by
    rw [round_eq]
    exact Int.le_floor.mpr (by push_cast; linarith)
  have hroundq : (310 : ℚ) ≤ ((round (10 * y) : ℤ) : ℚ) := by exact_mod_cast hround
  rw [pyRound1]
  rw [le_div_iff₀ (by norm_num : (0 : ℚ) < 10)]
  linarith

/-- C10: for every title, abstract (also absent ones) and publication year,
the quality score of the full clinical-analysis pipeline is at least 31, so
the lower clamp of the quality formula is never active on pipeline-produced
inputs. -/
theorem pipeline_quality_score_at_least_31 (title abstract : Option String)
    (pub_year : Option ℤ) (now : PyDateTime) :
    31 ≤ (perform_clinical_analysis title abstract pub_year now).quality_score := by
  simp only [perform_clinical_analysis]
  exact quality_pipeline_lower_bound _ _ _ _

/-! ### C9: purity of the analyzers with respect to the ambient clock -/

/-- C9: the three analyzer entry points are pure functions of their listed
arguments; their only dependence on the ambient datetime.now() value is
through its year, so two calls on identical inputs under clocks agreeing on
the year return identical results (and in particular repeated calls under
the same clock are idempotent, there being no other state in the model). -/
theorem analyzer_clock_dependence (title abstract : Option String) (pub_year : Option ℤ)
    (author_name institution pmid article_title : String)
    (publication_count citation_count pyear ccites cyear : ℤ) (n1 n2 : PyDateTime)
    (h : n1.year = n2.year) :
    perform_clinical_analysis title abstract pub_year n1
      = perform_clinical_analysis title abstract pub_year n2
    ∧ analyze_author_credibility author_name publication_count citation_count pyear
        institution n1
      = analyze_author_credibility author_name publication_count citation_count pyear
        institution n2
    ∧ analyze_citation_network pmid ccites cyear article_title n1
      = analyze_citation_network pmid ccites cyear article_title n2 := by
  refine ⟨?_, ?_, ?_⟩
  · simp only [perform_clinical_analysis, h]
  · simp only [analyze_author_credibility, h]
  · simp only [analyze_citation_network, h]

/-- Witness for C9: two clocks of the same year but different date and hour
give identical analyzer outputs on concrete inputs. -/
theorem analyzer_clock_dependence_witness :
    perform_clinical_analysis (some "t") (some "a") (some 2024) ⟨2025, 1, 1, 0⟩
      = perform_clinical_analysis (some "t") (some "a") (some 2024) ⟨2025, 12, 31, 23⟩
    ∧ analyze_author_credibility "Smith J" 12 200 2015 "harvard" ⟨2025, 1, 1, 0⟩
      = analyze_author_credibility "Smith J" 12 200 2015 "harvard" ⟨2025, 12, 31, 23⟩
    ∧ analyze_citation_network "12345" 30 2020 "t" ⟨2025, 1, 1, 0⟩
      = analyze_citation_network "12345" 30 2020 "t" ⟨2025, 12, 31, 23⟩ :=
  analyzer_clock_dependence (some "t") (some "a") (some 2024) "Smith J" "harvard" "12345" "t"
    12 200 2015 30 2020 ⟨2025, 1, 1, 0⟩ ⟨2025, 12, 31, 23⟩ rfl

/-! ### C8: author-credibility formula -/

/-- C8: for every author name, publication count, citation count, publication
year and institution string, the credibility score equals the capped sum of
the specification: 50, plus the publication and citation tier bonuses, plus
min(h, 20) for h = min(50, sqrt(citations) times 0.3), plus
min(0.5 times experience, 10), plus 10 when the lowercased institution
contains a token of the journal-name list and 8 when it contains a token of
the top-institution list, capped at 100. -/
theorem author_credibility_formula (author_name institution : String)
    (publication_count citation_count pub_year : ℤ) (now : PyDateTime)
    (h1 : 0 ≤ publication_count) (h2 : 0 ≤ citation_count) :
    (analyze_author_credibility author_name publication_count citation_count pub_year
        institution now).credibility_score
      = credibilityScoreSpec publication_count citation_count pub_year institution now := by
  simp only [analyze_author_credibility, credibilityScoreSpec]
  by_cases hinst : institution = ""
  · subst hinst
    have hH : HIGH_IMPACT_JOURNALS.any (fun j => pyIn j (pyLower "")) = false := by decide
    have hT : TOP_INSTITUTIONS.any (fun j => pyIn j (pyLower "")) = false := by decide
    simp [hH, hT]
  · simp [hinst]

/-- Witness for C8: the formula at concrete non-negative counts. -/
theorem author_credibility_formula_witness :
    (analyze_author_credibility "Smith J" 0 0 2020 "" ⟨2025, 1, 1, 0⟩).credibility_score
      = credibilityScoreSpec 0 0 2020 "" ⟨2025, 1, 1, 0⟩ :=
  author_credibility_formula "Smith J" "" 0 0 2020 ⟨2025, 1, 1, 0⟩ (le_refl 0) (le_refl 0)

/-! ### C6 and C1: search-result formatting -/

/-- Reduction of format_search_results on a documented-shape response with a
nonempty identifier list. -/
theorem format_mkSearch_cons (c : ℤ) (p : String) (rest : List String) :
    format_search_results (some (mkSearch c (p :: rest)))
      = if 10 < c then
          Except.ok ("Found " ++ toString c ++ " articles:\n\n"
            ++ searchEntries (((p :: rest).map JVal.str).take 10)
            ++ "\n... and " ++ toString (c - 10) ++ " more articles.\n")
        else
          Except.ok ("Found " ++ toString c ++ " articles:\n\n"
            ++ searchEntries (((p :: rest).map JVal.str).take 10)) := rfl

/-- C6: on a search response declaring total count C with an identifier list
of length L at most 10, the formatted output renders exactly L numbered
entries, each carrying the constructed PubMed link of its identifier; when C
exceeds 10 it additionally ends with the and C minus 10 more suffix; and when
L is zero it is exactly the fixed no-articles-found message. -/
theorem search_formatting_shape (c : ℤ) (pmids : List String) (hL : pmids.length ≤ 10) :
    (pmids = [] → format_search_results (some (mkSearch c pmids))
        = Except.ok "No articles found matching your query.")
    ∧ (pmids ≠ [] →
        format_search_results (some (mkSearch c pmids))
          = Except.ok ("Found " ++ toString c ++ " articles:\n\n"
              ++ String.join ((List.enumFrom 1 (pmids.map JVal.str)).map
                    (fun q => searchEntry q.1 q.2))
              ++ (if 10 < c then "\n... and " ++ toString (c - 10) ++ " more articles.\n"
                  else ""))
        ∧ ((List.enumFrom 1 (pmids.map JVal.str)).map (fun q => searchEntry q.1 q.2)).length
            = pmids.length) := by
  constructor
  · rintro rfl
    rfl
  · intro hne
    cases pmids with
    | nil => exact absurd rfl hne
    | cons p rest =>
      have htake : ((p :: rest).map JVal.str).take 10 = (p :: rest).map JVal.str :=
        List.take_of_length_le (by simpa using hL)
      constructor
      · rw [format_mkSearch_cons, htake]
        simp only [searchEntries]
        by_cases h10 : 10 < c
        · rw [if_pos h10, if_pos h10]
          simp only [String.append_assoc]
        · rw [if_neg h10, if_neg h10, String.append_empty]
      · rw [List.length_map, List.enumFrom_length, List.length_map]

set_option maxRecDepth 8192 in
/-- Witness for C6: the exact rendering for a response declaring 25 results
with two identifiers. -/
theorem search_formatting_shape_witness :
    format_search_results (some (mkSearch 25 ["111", "222"]))
      = Except.ok ("Found 25 articles:\n\n1. PMID: 111\n   ğŸ”— [PubMed Link](https://pubmed.ncbi.nlm.nih.gov/111/)\n2. PMID: 222\n   ğŸ”— [PubMed Link](https://pubmed.ncbi.nlm.nih.gov/222/)\n\n... and 15 more articles.\n")
    ∧ ((List.enumFrom 1 (["111", "222"].map JVal.str)).map
        (fun q => searchEntry q.1 q.2)).length = 2 := by
  have h := (search_formatting_shape 25 ["111", "222"] (by norm_num)).2 (by decide)
  exact ⟨h.1.trans (congrArg Except.ok (by decide)), h.2⟩

/-- C1, counterexample: the always-return-text contract does not cover every
malformed upstream response. A response whose esearchresult carries a
nonempty idlist and a non-numeric count string makes format_search_results
raise ValueError at int(count), and search_pubmed passes that response
straight to format_search_results, so the exception escapes to the caller. -/
theorem tool_text_contract_counterexample :
    format_search_results (some (JVal.obj [("esearchresult",
        JVal.obj [("idlist", JVal.arr [JVal.str "12345"]),
                  ("count", JVal.str "unknown")])]))
      = Except.error "ValueError" := rfl

/-- C1, amended: the search tool returns a string for an absent upstream
response (every transport failure is converted to None by make_ncbi_request)
and for every response of the documented ESearch shape, for every count and
every identifier list. -/
theorem search_tool_text_on_documented_shapes (c : ℤ) (pmids : List String) :
    format_search_results none
      = Except.ok "No search results found or invalid response format."
    ∧ (format_search_results (some (mkSearch c pmids))).isOk = true := by
  refine ⟨rfl, ?_⟩
  cases pmids with
  | nil => rfl
  | cons p rest =>
    rw [format_mkSearch_cons]
    by_cases h10 : 10 < c
    · rw [if_pos h10]
      rfl
    · rw [if_neg h10]
      rfl

end PubMed
